import Mathlib

/-!
Verification development for the SnapWiz package-installation orchestrator.

The Python modules `package_handler.py`, `retry_utils.py`, `exceptions.py`,
`logger.py` and the queue/batch logic of `main.py` are shallowly embedded:
pure helpers become Lean functions, the filesystem and the external tools
(subprocess invocations, `which` probes, hash digests) are an explicit
environment record, and every external tool invocation performed by the
verification path is recorded in an event trace.
-/

namespace SnapWiz

/-! ## Python string/path primitives -/

/-- Index of the last occurrence of a character in a list (Python `str.rfind`,
as an `Option`). -/
def lastIdxOf (c : Char) : List Char → Option Nat
  | [] => none
  | x :: xs =>
    match lastIdxOf c xs with
    | some i => some (i + 1)
    | none => if x = c then some 0 else none

/-- Python `str.rfind`: index of last occurrence, `-1` when absent. -/
def pyRfind (c : Char) (l : List Char) : Int :=
  match lastIdxOf c l with
  | some i => (i : Int)
  | none => -1

/-- `os.path.splitext` (posix): split off the extension at the last dot of the
basename, provided a non-dot character precedes it within the basename
(so dotfiles such as `.bashrc` have no extension). -/
def splitext (p : String) : String × String :=
  let cs := p.data
  let sepIndex := pyRfind '/' cs
  let dotIndex := pyRfind '.' cs
  if sepIndex < dotIndex then
    let d := dotIndex.toNat
    let start := (sepIndex + 1).toNat
    if ((cs.drop start).take (d - start)).any (fun ch => ch ≠ '.') then
      (⟨cs.take d⟩, ⟨cs.drop d⟩)
    else
      (p, "")
  else
    (p, "")

/-- `os.path.basename` (posix): the part after the last slash. -/
def pyBasename (p : String) : String :=
  ⟨(p.data.drop ((pyRfind '/' p.data + 1).toNat))⟩

/-- Python `sub in s` substring test. -/
def pyContains (s sub : String) : Bool :=
  decide (List.IsInfix sub.data s.data)

/-- Python `str.lower` (character-wise, which agrees on the ASCII data the
handlers lowercase). -/
def pyLower (s : String) : String :=
  ⟨s.data.map Char.toLower⟩

/-- Python `str.upper`. -/
def pyUpper (s : String) : String :=
  ⟨s.data.map Char.toUpper⟩

/-! ## Environment: filesystem, hashes and external tools

`subprocess.run` outcomes, as observed by the callers in `package_handler.py`:
a completed process (return code, stdout, stderr), a `FileNotFoundError`
(the command is absent from the host; carries `str(e)`), a
`subprocess.TimeoutExpired`, or any other exception (carries `str(e)`). -/

inductive ProcResult where
  | finished (returncode : Int) (stdout stderr : String)
  | notFound (msg : String)
  | timeout
  | raised (msg : String)
deriving DecidableEq, Repr

/-- The ambient host: filesystem predicates, file bytes, abstract hash
digests (`hashlib` is external), the `which` probe used by
`_command_exists`, and the subprocess oracle. -/
structure Env where
  fexists : String → Bool
  fsize : String → Nat
  readable : String → Bool
  contents : String → List Nat
  sha256 : List Nat → String
  md5 : List Nat → String
  readErrMsg : String → String
  which : String → Bool
  run : List String → ProcResult

/-- Exceptions that the checksum helper can raise, with their `str(e)`. -/
inductive PyExn where
  | valueError (msg : String)
  | ioError (msg : String)
deriving DecidableEq, Repr

/-- `str(e)` of a raised exception. -/
def PyExn.msg : PyExn → String
  | .valueError m => m
  | .ioError m => m

/-! ## config.py -/

/-- `config.get_supported_extensions()`. -/
def supported_extensions : List String := [".deb", ".rpm", ".snap", ".flatpak"]

/-- `config.DEFAULT_CHECKSUM_TYPE`. -/
def DEFAULT_CHECKSUM_TYPE : String := "sha256"

/-- `config.is_supported_package`: extension (lowercased) is supported. -/
def is_supported_package (filename : String) : Bool :=
  supported_extensions.contains (pyLower (splitext filename).2)

/-! ## package_handler.py: checksum and package type -/

/-- `PackageHandler.get_package_type`: lowercased extension. -/
def get_package_type (package_path : String) : String :=
  pyLower (splitext package_path).2

/-- `PackageHandler.validate_package`: file exists and has a supported
extension. -/
def validate_package (env : Env) (package_path : String) : Bool :=
  env.fexists package_path &&
    supported_extensions.contains (pyLower (splitext package_path).2)

/-- `PackageHandler._calculate_checksum`: dispatch on the lowercased
checksum type; only `sha256` and `md5` have a hasher, any other type raises
`ValueError`. Reading the file raises `IOError` when it is unreadable. -/
def calculate_checksum (env : Env) (file_path checksum_type : String) :
    Except PyExn String :=
  if pyLower checksum_type = "sha256" then
    if env.readable file_path then .ok (env.sha256 (env.contents file_path))
    else .error (.ioError (env.readErrMsg file_path))
  else if pyLower checksum_type = "md5" then
    if env.readable file_path then .ok (env.md5 (env.contents file_path))
    else .error (.ioError (env.readErrMsg file_path))
  else
    .error (.valueError ("Unsupported checksum type: " ++ checksum_type))

/-! ## package_handler.py: verification pipeline

Every `subprocess.run` attempted by the verification path is recorded as a
`run` event, so "no external tool is invoked" is literally "the trace is
empty". -/

inductive Event where
  | run (cmd : List String)
deriving DecidableEq, Repr

/-- The `verification_results` dictionary built by `verify_package`. -/
structure VerificationResults where
  file_exists : Bool
  file_size : Nat
  checksum_match : Option Bool
  signature_valid : Option Bool
  integrity_ok : Bool
deriving DecidableEq, Repr

/-- Initial value of `verification_results`. -/
def VerificationResults.init : VerificationResults :=
  { file_exists := false, file_size := 0, checksum_match := none,
    signature_valid := none, integrity_ok := false }

/-- `PackageHandler._verify_gpg_signature`. For `.deb` a detached signature
sibling (`.asc`, then `.sig`) is required; absence of both is a failure
before any tool runs. For `.rpm`, `rpm --checksig` must exit 0 with `OK` in
its stdout. Other types are unsupported. All of its exceptions are caught
internally. -/
def verify_gpg_signature (env : Env) (package_path : String) :
    (Bool × String) × List Event :=
  let package_type := get_package_type package_path
  if package_type = ".deb" then
    let sig_path :=
      if env.fexists (package_path ++ ".asc") then package_path ++ ".asc"
      else package_path ++ ".sig"
    if ¬ env.fexists sig_path then
      ((false, "No signature file found (.asc or .sig required)"), [])
    else
      let cmd := ["gpg", "--verify", sig_path, package_path]
      match env.run cmd with
      | .finished returncode _ stderr =>
        if returncode = 0 then ((true, "Signature valid"), [.run cmd])
        else ((false, stderr), [.run cmd])
      | .notFound _ => ((false, "GPG or RPM tools not installed"), [.run cmd])
      | .timeout => ((false, "Signature verification timed out"), [.run cmd])
      | .raised m => ((false, "Signature verification error: " ++ m), [.run cmd])
  else if package_type = ".rpm" then
    let cmd := ["rpm", "--checksig", package_path]
    match env.run cmd with
    | .finished returncode stdout stderr =>
      if returncode = 0 ∧ pyContains stdout "OK" then
        ((true, "Signature valid"), [.run cmd])
      else ((false, stdout ++ stderr), [.run cmd])
    | .notFound _ => ((false, "GPG or RPM tools not installed"), [.run cmd])
    | .timeout => ((false, "Signature verification timed out"), [.run cmd])
    | .raised m => ((false, "Signature verification error: " ++ m), [.run cmd])
  else
    ((false, "Unsupported package type for signature verification"), [])

/-- `PackageHandler._check_package_integrity`: read-only metadata query for
`.deb`/`.rpm`; a missing inspection tool (`FileNotFoundError`) passes the
check by default, a non-zero exit or a timeout fails it. Other formats pass
trivially with no tool invocation. -/
def check_package_integrity (env : Env) (package_path : String) :
    (Bool × String) × List Event :=
  let package_type := get_package_type package_path
  if package_type = ".deb" then
    let cmd := ["dpkg-deb", "--info", package_path]
    match env.run cmd with
    | .finished returncode _ _ =>
      if returncode = 0 then ((true, "Package structure valid"), [.run cmd])
      else ((false, "Package appears to be corrupted or invalid"), [.run cmd])
    | .notFound _ =>
      ((true, "Integrity check skipped (tools not available)"), [.run cmd])
    | .timeout => ((false, "Integrity check timed out"), [.run cmd])
    | .raised m => ((false, "Integrity check error: " ++ m), [.run cmd])
  else if package_type = ".rpm" then
    let cmd := ["rpm", "-qp", package_path]
    match env.run cmd with
    | .finished returncode _ _ =>
      if returncode = 0 then ((true, "Package structure valid"), [.run cmd])
      else ((false, "Package appears to be corrupted or invalid"), [.run cmd])
    | .notFound _ =>
      ((true, "Integrity check skipped (tools not available)"), [.run cmd])
    | .timeout => ((false, "Integrity check timed out"), [.run cmd])
    | .raised m => ((false, "Integrity check error: " ++ m), [.run cmd])
  else
    ((true, "Basic checks passed"), [])

/-- The success summary built at the end of `verify_package` (the source
writes literal backslash-n sequences here). -/
def verify_success_msg (checksum : Option String) (checksum_type : String)
    (check_signature : Bool) : String :=
  "✅ Package verification successful\\n" ++
    (match checksum with
     | some c => if c = "" then "" else "✓ " ++ pyUpper checksum_type ++ " checksum verified\\n"
     | none => "") ++
    (if check_signature then "✓ GPG signature valid\\n" else "") ++
    "✓ Package integrity OK"

/-- Step 5 of `verify_package`: structural integrity, then the success
summary. -/
def verify_step_integrity (env : Env) (package_path : String)
    (res : VerificationResults) (checksum : Option String)
    (checksum_type : String) (check_signature : Bool) :
    (Bool × String × VerificationResults) × List Event :=
  let ((integrity_ok, integrity_msg), ev) := check_package_integrity env package_path
  let res5 := { res with integrity_ok := integrity_ok }
  if integrity_ok then
    ((true, verify_success_msg checksum checksum_type check_signature, res5), ev)
  else
    ((false, "Package integrity check failed: " ++ integrity_msg, res5), ev)

/-- Step 4 of `verify_package`: GPG signature when requested. -/
def verify_step_signature (env : Env) (package_path : String)
    (res : VerificationResults) (checksum : Option String)
    (checksum_type : String) (check_signature : Bool) :
    (Bool × String × VerificationResults) × List Event :=
  if check_signature then
    let ((sig_valid, sig_msg), ev) := verify_gpg_signature env package_path
    let res4 := { res with signature_valid := some sig_valid }
    if ¬ sig_valid then
      ((false, "GPG signature verification failed: " ++ sig_msg, res4), ev)
    else
      let (out, ev2) :=
        verify_step_integrity env package_path res4 checksum checksum_type check_signature
      (out, ev ++ ev2)
  else
    verify_step_integrity env package_path res checksum checksum_type check_signature

/-- Step 3 of `verify_package`: checksum comparison when an expected value
was supplied (Python truthiness: `None` and the empty string both skip it).
A raising `_calculate_checksum` is caught by the surrounding handler, which
returns the `Verification error:` outcome. The comparison lowercases both
sides. -/
def verify_step_checksum (env : Env) (package_path : String)
    (res : VerificationResults) (checksum : Option String)
    (checksum_type : String) (check_signature : Bool) :
    (Bool × String × VerificationResults) × List Event :=
  match checksum with
  | some c =>
    if c = "" then
      verify_step_signature env package_path res checksum checksum_type check_signature
    else
      match calculate_checksum env package_path checksum_type with
      | .error e => ((false, "Verification error: " ++ e.msg, res), [])
      | .ok calculated =>
        if pyLower calculated = pyLower c then
          verify_step_signature env package_path
            { res with checksum_match := some true } checksum checksum_type check_signature
        else
          ((false,
            pyUpper checksum_type ++ " checksum mismatch!\\nExpected: " ++ c ++
              "\\nGot: " ++ calculated,
            { res with checksum_match := some false }), [])
  | none =>
    verify_step_signature env package_path res checksum checksum_type check_signature

/-- `PackageHandler.verify_package`: existence, minimum size (1024 bytes),
checksum, signature, structural integrity — in that order, short-circuiting
on the first failure. Returns the `(success, message, results)` triple and
the trace of external tool invocations. -/
def verify_package (env : Env) (package_path : String) (checksum : Option String)
    (checksum_type : String) (check_signature : Bool) :
    (Bool × String × VerificationResults) × List Event :=
  if ¬ env.fexists package_path then
    ((false, "Package file not found", VerificationResults.init), [])
  else
    let file_size := env.fsize package_path
    let res2 := { VerificationResults.init with file_exists := true, file_size := file_size }
    if file_size < 1024 then
      ((false,
        "Package file too small (" ++ toString file_size ++ " bytes). May be corrupted.",
        res2), [])
    else
      verify_step_checksum env package_path res2 checksum checksum_type check_signature

/-! ## package_handler.py: installation backends -/

/-- Stdout/stderr to error message: `result.stderr if result.stderr else
result.stdout`. -/
def pickErr (stdout stderr : String) : String :=
  if stderr ≠ "" then stderr else stdout

/-- The fixed timeout message shared by the install routines. -/
def timeoutMsg : String :=
  "Installation timed out. The package may be too large or there may be network issues."

/-- `PackageHandler._install_deb`: prefer `apt`, fall back to `dpkg` with a
best-effort `apt-get install -f -y` dependency-fix pass whose own outcome
does not override the primary failure. -/
def install_deb (env : Env) (package_path : String) : Bool × String :=
  if env.which "apt" then
    match env.run ["pkexec", "apt", "install", "-y", package_path] with
    | .finished returncode stdout stderr =>
      if returncode = 0 then (true, "Package installed successfully!\n\n" ++ stdout)
      else (false, "Installation failed:\n" ++ pickErr stdout stderr)
    | .timeout => (false, timeoutMsg)
    | .notFound m => (false, "Installation error: " ++ m)
    | .raised m => (false, "Installation error: " ++ m)
  else if env.which "dpkg" then
    match env.run ["pkexec", "dpkg", "-i", package_path] with
    | .finished returncode stdout stderr =>
      if returncode = 0 then (true, "Package installed successfully!\n\n" ++ stdout)
      else
        match env.run ["pkexec", "apt-get", "install", "-f", "-y"] with
        | .finished _ _ _ => (false, "Installation failed:\n" ++ pickErr stdout stderr)
        | .timeout => (false, timeoutMsg)
        | .notFound m => (false, "Installation error: " ++ m)
        | .raised m => (false, "Installation error: " ++ m)
    | .timeout => (false, timeoutMsg)
    | .notFound m => (false, "Installation error: " ++ m)
    | .raised m => (false, "Installation error: " ++ m)
  else
    (false, "No suitable package manager found for .deb files")

/-- `PackageHandler._install_rpm`: `dnf`, `yum`, `zypper`, then raw `rpm`,
first one present on the host. -/
def install_rpm (env : Env) (package_path : String) : Bool × String :=
  let go (cmd : List String) : Bool × String :=
    match env.run cmd with
    | .finished returncode stdout stderr =>
      if returncode = 0 then (true, "Package installed successfully!\n\n" ++ stdout)
      else (false, "Installation failed:\n" ++ pickErr stdout stderr)
    | .timeout => (false, timeoutMsg)
    | .notFound m => (false, "Installation error: " ++ m)
    | .raised m => (false, "Installation error: " ++ m)
  if env.which "dnf" then go ["pkexec", "dnf", "install", "-y", package_path]
  else if env.which "yum" then go ["pkexec", "yum", "install", "-y", package_path]
  else if env.which "zypper" then go ["pkexec", "zypper", "install", "-y", package_path]
  else if env.which "rpm" then go ["pkexec", "rpm", "-ivh", package_path]
  else (false, "No suitable package manager found for .rpm files")

/-- `PackageHandler._install_snap`: requires the `snap` command and a
running `snapd` service before attempting the privileged install with the
`--dangerous` flag. -/
def install_snap (env : Env) (package_path : String) : Bool × String :=
  if ¬ env.which "snap" then
    (false, "Snap is not installed. Please install snapd:\n  sudo apt install snapd  # Debian/Ubuntu\n  sudo dnf install snapd  # Fedora")
  else
    match env.run ["systemctl", "is-active", "snapd"] with
    | .finished rc _ _ =>
      if rc ≠ 0 then
        (false, "snapd service is not running. Please start it:\n  sudo systemctl start snapd\n  sudo systemctl enable snapd")
      else
        match env.run ["pkexec", "snap", "install", "--dangerous", package_path] with
        | .finished returncode stdout stderr =>
          if returncode = 0 then (true, "Snap package installed successfully!\n\n" ++ stdout)
          else (false, "Installation failed:\n" ++ pickErr stdout stderr)
        | .timeout => (false, timeoutMsg)
        | .notFound m => (false, "Installation error: " ++ m)
        | .raised m => (false, "Installation error: " ++ m)
    | .timeout => (false, timeoutMsg)
    | .notFound m => (false, "Installation error: " ++ m)
    | .raised m => (false, "Installation error: " ++ m)

/-- `PackageHandler._install_flatpak`: user-scope bundle install first, one
system-scope elevated fallback within the same call. -/
def install_flatpak (env : Env) (package_path : String) : Bool × String :=
  if ¬ env.which "flatpak" then
    (false, "Flatpak is not installed. Please install it:\n  sudo apt install flatpak  # Debian/Ubuntu\n  sudo dnf install flatpak  # Fedora")
  else
    let finish : ProcResult → Bool × String := fun r =>
      match r with
      | .finished returncode stdout stderr =>
        if returncode = 0 then (true, "Flatpak package installed successfully!\n\n" ++ stdout)
        else (false, "Installation failed:\n" ++ pickErr stdout stderr)
      | .timeout => (false, timeoutMsg)
      | .notFound m => (false, "Installation error: " ++ m)
      | .raised m => (false, "Installation error: " ++ m)
    match env.run ["flatpak", "install", "-y", "--bundle", package_path] with
    | .finished rc stdout _ =>
      if rc ≠ 0 then
        finish (env.run ["pkexec", "flatpak", "install", "-y", "--system", "--bundle", package_path])
      else (true, "Flatpak package installed successfully!\n\n" ++ stdout)
    | .timeout => (false, timeoutMsg)
    | .notFound m => (false, "Installation error: " ++ m)
    | .raised m => (false, "Installation error: " ++ m)

/-- `PackageHandler.install_package`: dispatch on the detected extension;
anything else is an unsupported-format failure with no subprocess. Every
branch returns a structured `(success, message)` pair. -/
def install_package (env : Env) (package_path : String) : Bool × String :=
  let package_type := get_package_type package_path
  if package_type = ".deb" then install_deb env package_path
  else if package_type = ".rpm" then install_rpm env package_path
  else if package_type = ".snap" then install_snap env package_path
  else if package_type = ".flatpak" then install_flatpak env package_path
  else (false, "Unsupported package format")

/-! ## exceptions.py: the error-class hierarchy -/

/-- The concrete exception classes declared in `exceptions.py`. -/
inductive ExnClass where
  | SnapWizError
  | PackageError
  | PackageNotFoundError
  | InvalidPackageError
  | UnsupportedPackageFormatError
  | PackageVerificationError
  | InstallationError
  | PackageManagerNotFoundError
  | DependencyError
  | InstallationTimeoutError
  | InstallationCancelledError
  | PermissionError
  | InsufficientPrivilegesError
  | NetworkError
  | DownloadError
  | NetworkTimeoutError
  | SystemError
  | ServiceNotRunningError
  | DiskSpaceError
  | ConfigurationError
  | InvalidConfigurationError
  | LanguageError
  | UnsupportedLanguageError
  | TranslationNotFoundError
deriving DecidableEq, Repr

/-- Proper ancestors of each class inside the SnapWiz hierarchy (every class
further inherits Python's `Exception`). -/
def ExnClass.ancestors : ExnClass → List ExnClass
  | .SnapWizError => []
  | .PackageError => [.SnapWizError]
  | .PackageNotFoundError => [.PackageError, .SnapWizError]
  | .InvalidPackageError => [.PackageError, .SnapWizError]
  | .UnsupportedPackageFormatError => [.PackageError, .SnapWizError]
  | .PackageVerificationError => [.PackageError, .SnapWizError]
  | .InstallationError => [.SnapWizError]
  | .PackageManagerNotFoundError => [.InstallationError, .SnapWizError]
  | .DependencyError => [.InstallationError, .SnapWizError]
  | .InstallationTimeoutError => [.InstallationError, .SnapWizError]
  | .InstallationCancelledError => [.InstallationError, .SnapWizError]
  | .PermissionError => [.SnapWizError]
  | .InsufficientPrivilegesError => [.PermissionError, .SnapWizError]
  | .NetworkError => [.SnapWizError]
  | .DownloadError => [.NetworkError, .SnapWizError]
  | .NetworkTimeoutError => [.NetworkError, .SnapWizError]
  | .SystemError => [.SnapWizError]
  | .ServiceNotRunningError => [.SystemError, .SnapWizError]
  | .DiskSpaceError => [.SystemError, .SnapWizError]
  | .ConfigurationError => [.SnapWizError]
  | .InvalidConfigurationError => [.ConfigurationError, .SnapWizError]
  | .LanguageError => [.SnapWizError]
  | .UnsupportedLanguageError => [.LanguageError, .SnapWizError]
  | .TranslationNotFoundError => [.LanguageError, .SnapWizError]

/-- Python `isinstance(e, cls)` for an instance of concrete class `c`. -/
def isinstance (c target : ExnClass) : Bool :=
  c = target || (ExnClass.ancestors c).contains target

/-- An exception instance: concrete class plus an identity tag, so "the
error finally raised is the very error produced by the last invocation" is
expressible. -/
structure Exn where
  cls : ExnClass
  tag : Nat
deriving DecidableEq, Repr

/-- `except (A, B, ...)` matching: instance of any class of the tuple. -/
def exnMatches (tuple : List ExnClass) (e : Exn) : Bool :=
  tuple.any (fun t => isinstance e.cls t)

/-- `exceptions.is_retryable_error`: instance of `NetworkTimeoutError`,
`DownloadError` or `InstallationTimeoutError`. -/
def is_retryable_error (e : Exn) : Bool :=
  exnMatches [.NetworkTimeoutError, .DownloadError, .InstallationTimeoutError] e

/-! ## retry_utils.py: the retry engine -/

/-- `retry_utils.RetryConfig`; the default `retryable_exceptions` tuple is
`(NetworkError, NetworkTimeoutError, DownloadError, InstallationTimeoutError)`. -/
structure RetryConfig where
  max_attempts : Nat := 3
  initial_delay : Rat := 1
  backoff_factor : Rat := 2
  max_delay : Rat := 30
  retryable_exceptions : List ExnClass :=
    [.NetworkError, .NetworkTimeoutError, .DownloadError, .InstallationTimeoutError]

/-- `retry_utils.DEFAULT_RETRY_CONFIG`. -/
def DEFAULT_RETRY_CONFIG : RetryConfig := {}

/-- Observable actions of the retry wrapper, in order: an invocation of the
wrapped operation, a retry-notification callback, a blocking sleep, a
final-failure callback. -/
inductive REvent where
  | call (attempt : Nat)
  | retryCb (attempt : Nat) (e : Exn) (delay : Rat)
  | sleep (delay : Rat)
  | finalCb (e : Exn)
deriving DecidableEq, Repr

/-- The `for attempt in range(1, max_attempts + 1)` loop of the wrapper
produced by `retry_on_failure`, with `remaining = max_attempts - attempt + 1`
as the structural fuel (so `attempt >= config.max_attempts` is
`remaining = 1`). `op k` is the behavior of the wrapped operation on its
k-th invocation. The boolean flags record whether the optional callbacks
were supplied. Falling out of the loop (possible only when
`max_attempts = 0`) returns Python's implicit `None`, modelled as `.ok none`. -/
def retryGo (retryable : Exn → Bool) (op : Nat → Except Exn α)
    (onRetryCb onFinalCb : Bool) (factor max_delay : Rat) :
    Nat → Nat → Rat → Except Exn (Option α) × List REvent
  | 0, _, _ => (.ok none, [])
  | remaining + 1, attempt, delay =>
    match op attempt with
    | .ok v => (.ok (some v), [.call attempt])
    | .error e =>
      if retryable e then
        if remaining = 0 then
          (.error e, [.call attempt] ++ (if onFinalCb then [.finalCb e] else []))
        else
          let next :=
            retryGo retryable op onRetryCb onFinalCb factor max_delay
              remaining (attempt + 1) (min (delay * factor) max_delay)
          (next.1,
            [.call attempt] ++
              (if onRetryCb then [.retryCb attempt e delay] else []) ++
              [.sleep delay] ++ next.2)
      else
        (.error e, [.call attempt])

/-- `retry_utils.retry_on_failure` applied to an operation: run the attempt
loop from attempt 1 with the configured initial delay. -/
def retry_on_failure (config : RetryConfig) (onRetryCb onFinalCb : Bool)
    (op : Nat → Except Exn α) : Except Exn (Option α) × List REvent :=
  retryGo (exnMatches config.retryable_exceptions) op onRetryCb onFinalCb
    config.backoff_factor config.max_delay
    config.max_attempts 1 config.initial_delay

/-- Number of invocations of the wrapped operation recorded in a trace. -/
def callCount (trace : List REvent) : Nat :=
  (trace.filter (fun ev => match ev with | .call _ => true | _ => false)).length

/-- Number of sleeps recorded in a trace. -/
def sleepCount (trace : List REvent) : Nat :=
  (trace.filter (fun ev => match ev with | .sleep _ => true | _ => false)).length

/-! ## logger.py and the batch orchestration of main.py -/

/-- One record appended by `InstallLogger.log_installation` (the wall-clock
timestamp is omitted). -/
structure LogEntry where
  package : String
  package_name : String
  success : Bool
  message : String
deriving DecidableEq, Repr

/-- Terminal state of a batch run. -/
inductive BatchEnd where
  | completed
  | aborted
deriving DecidableEq, Repr

/-- The mutual recursion of `install_next_in_queue` /
`batch_installation_finished` over the suffix of `install_queue` from
`current_installing_index` on. `outcome p` is the `(success, message)` the
`InstallerThread` reports for package `p` (its whole verify + install
pipeline); `continueReply p m` is the user's answer to the
continue-with-remaining prompt shown after `p` failed with message `m`.
Returns the History entries appended (in order), the packages whose
installation was attempted (in order), and the terminal state. A failure is
always logged before the prompt; the prompt is shown only when the failed
item is not the last; declining sets `batch_cancelled` and stops the run. -/
def runBatch (outcome : String → Bool × String)
    (continueReply : String → String → Bool) :
    List String → List LogEntry × List String × BatchEnd
  | [] => ([], [], .completed)
  | p :: rest =>
    let (succ, msg) := outcome p
    let entry : LogEntry := ⟨p, pyBasename p, succ, msg⟩
    if succ then
      let next := runBatch outcome continueReply rest
      (entry :: next.1, p :: next.2.1, next.2.2)
    else if rest.isEmpty then
      ([entry], [p], .completed)
    else if continueReply p msg then
      let next := runBatch outcome continueReply rest
      (entry :: next.1, p :: next.2.1, next.2.2)
    else
      ([entry], [p], .aborted)

/-! ## main.py: the installation queue -/

/-- The queue loop of `browse_package`: append each selected path unless it
is already in the queue (the membership test sees the updates made for the
earlier paths of the same selection). -/
def browseAddQueue : List String → List String → List String
  | queue, [] => queue
  | queue, p :: ps =>
    browseAddQueue (if queue.contains p then queue else queue ++ [p]) ps

/-- The queue effect of `dropEvent`: keep the dropped URLs that are regular
files with a supported extension and not already in the queue (the
membership test sees only the queue as it was when the drop started), then
extend the queue with them. -/
def dropEventQueue (isFile : String → Bool) (queue urls : List String) :
    List String :=
  let valid_files := urls.filter
    (fun p => isFile p && is_supported_package p && !(queue.contains p))
  queue ++ valid_files

/-- `remove_from_queue`: drop the item at a (non-negative, in-range) index. -/
def removeFromQueue (queue : List String) (index : Nat) : List String :=
  if index < queue.length then queue.eraseIdx index else queue

/-! ## Concrete hosts for evaluating the theorems -/

/-- A permissive host: every path exists, is readable and large, every tool
is present and succeeds. -/
def envBase : Env where
  fexists := fun _ => true
  fsize := fun _ => 4096
  readable := fun _ => true
  contents := fun _ => [1, 2, 3]
  sha256 := fun _ => "aa11"
  md5 := fun _ => "bb22"
  readErrMsg := fun _ => "unreadable file"
  which := fun _ => true
  run := fun _ => .finished 0 "out" ""

/-- A host whose files are all 100 bytes. -/
def envSmall : Env :=
  { envBase with fsize := fun _ => 100 }

/-- A host where only `/tmp/a.deb` exists (in particular no `.asc`/`.sig`
sibling). -/
def envOnlyPkg : Env :=
  { envBase with fexists := fun p => decide (p = "/tmp/a.deb") }

/-- A host with no inspection tools installed: every subprocess attempt
raises `FileNotFoundError`. -/
def envNoTools : Env :=
  { envBase with run := fun _ => .notFound "no such file or directory" }

/-! # Theorems -/

/-- A concatenation of strings is empty only when both parts are. -/
theorem str_append_eq_empty_iff (s t : String) :
    s ++ t = "" ↔ s = "" ∧ t = "" := by
  constructor
  · intro hc
    have hd := congrArg String.data hc
    rw [String.data_append] at hd
    have hn := List.append_eq_nil.mp hd
    exact ⟨String.ext hn.1, String.ext hn.2⟩
  · rintro ⟨h1, h2⟩
    rw [h1, h2]
    rfl

/-- Claim C1: for every package path that exists with size strictly below
1024 bytes, `verify_package` fails with the too-small ("may be corrupted",
i.e. invalid-package) outcome, for every combination of expected checksum,
checksum type and signature flag, and the external-tool trace is empty. -/
theorem verify_rejects_small_file (env : Env) (package_path : String)
    (checksum : Option String) (checksum_type : String) (check_signature : Bool)
    (hex : env.fexists package_path = true)
    (hsize : env.fsize package_path < 1024) :
    verify_package env package_path checksum checksum_type check_signature =
      ((false,
        "Package file too small (" ++ toString (env.fsize package_path) ++
          " bytes). May be corrupted.",
        { file_exists := true, file_size := env.fsize package_path,
          checksum_match := none, signature_valid := none,
          integrity_ok := false }), []) := by
  simp [verify_package, hex, hsize, VerificationResults.init]

/-- Evaluation of the C1 theorem on a concrete 100-byte file with a
checksum, a non-default checksum type and the signature flag set. -/
theorem verify_rejects_small_file_witness :
    verify_package envSmall "/tmp/a.deb" (some "abc") "sha512" true =
      ((false,
        "Package file too small (" ++ toString (envSmall.fsize "/tmp/a.deb") ++
          " bytes). May be corrupted.",
        { file_exists := true, file_size := envSmall.fsize "/tmp/a.deb",
          checksum_match := none, signature_valid := none,
          integrity_ok := false }), []) :=
  verify_rejects_small_file envSmall "/tmp/a.deb" (some "abc") "sha512" true
    rfl (by decide)

/-- Claim C2, counterexample: on a readable file, the checksum helper does
not accept `sha1` or `sha512`; it raises the unsupported-type `ValueError`
(so `verify_package` turns the request into a verification-error failure
rather than computing a digest). -/
theorem checksum_sha1_counterexample :
    calculate_checksum envBase "/tmp/a.deb" "sha1" =
      .error (.valueError "Unsupported checksum type: sha1") ∧
    calculate_checksum envBase "/tmp/a.deb" "sha512" =
      .error (.valueError "Unsupported checksum type: sha512") ∧
    (verify_package envBase "/tmp/a.deb" (some "ff00") "sha1" false).1 =
      (false, "Verification error: Unsupported checksum type: sha1",
        { file_exists := true, file_size := 4096, checksum_match := none,
          signature_valid := none, integrity_ok := false }) := by
  refine ⟨rfl, rfl, by decide⟩

/-- Claim C2 (amended): on every readable file the checksum helper accepts
exactly `sha256` (the configured default) and `md5`, case-insensitively,
returning the corresponding digest; every other algorithm — in particular
`sha1` and `sha512` — raises the unsupported-checksum-type error. -/
theorem checksum_algorithms (env : Env) (file_path : String)
    (hr : env.readable file_path = true) :
    calculate_checksum env file_path DEFAULT_CHECKSUM_TYPE =
      .ok (env.sha256 (env.contents file_path)) ∧
    calculate_checksum env file_path "sha256" =
      .ok (env.sha256 (env.contents file_path)) ∧
    calculate_checksum env file_path "md5" =
      .ok (env.md5 (env.contents file_path)) ∧
    ∀ checksum_type, pyLower checksum_type ≠ "sha256" →
      pyLower checksum_type ≠ "md5" →
      calculate_checksum env file_path checksum_type =
        .error (.valueError ("Unsupported checksum type: " ++ checksum_type)) := by
  have h1 : pyLower "sha256" = "sha256" := by decide
  have h2 : pyLower "md5" = "md5" := by decide
  have h3 : ("md5" : String) ≠ "sha256" := by decide
  refine ⟨?_, ?_, ?_, ?_⟩
  · simp [calculate_checksum, DEFAULT_CHECKSUM_TYPE, h1, hr]
  · simp [calculate_checksum, h1, hr]
  · simp [calculate_checksum, h2, h3, hr]
  · intro checksum_type hct1 hct2
    simp [calculate_checksum, hct1, hct2]

/-- Evaluation of the amended C2 theorem on a concrete readable file: the
default algorithm digests, `sha1` raises. -/
theorem checksum_algorithms_witness :
    calculate_checksum envBase "/tmp/a.deb" DEFAULT_CHECKSUM_TYPE =
      .ok (envBase.sha256 (envBase.contents "/tmp/a.deb")) ∧
    calculate_checksum envBase "/tmp/a.deb" "sha1" =
      .error (.valueError ("Unsupported checksum type: " ++ "sha1")) :=
  ⟨(checksum_algorithms envBase "/tmp/a.deb" rfl).1,
   (checksum_algorithms envBase "/tmp/a.deb" rfl).2.2.2 "sha1"
     (by decide) (by decide)⟩

/-- Claim C3: on an existing file of size at least 1024 bytes, a supplied
(non-empty) expected checksum whose hex value differs from the computed
digest (the code compares both sides lowercased, as hex digests are
case-insensitive) makes `verify_package` fail with the checksum-mismatch
outcome, whose message contains both the expected and the computed value;
no external tool is invoked. -/
theorem verify_checksum_mismatch (env : Env)
    (package_path c checksum_type d : String) (check_signature : Bool)
    (hex : env.fexists package_path = true)
    (hsize : ¬ env.fsize package_path < 1024)
    (hcalc : calculate_checksum env package_path checksum_type = .ok d)
    (hc : c ≠ "")
    (hne : pyLower d ≠ pyLower c) :
    verify_package env package_path (some c) checksum_type check_signature =
      ((false,
        pyUpper checksum_type ++ " checksum mismatch!\\nExpected: " ++ c ++
          "\\nGot: " ++ d,
        { file_exists := true, file_size := env.fsize package_path,
          checksum_match := some false, signature_valid := none,
          integrity_ok := false }), []) ∧
    (∃ s t, (verify_package env package_path (some c) checksum_type
        check_signature).1.2.1 = s ++ c ++ t) ∧
    (∃ s, (verify_package env package_path (some c) checksum_type
        check_signature).1.2.1 = s ++ d) := by
  have hmain :
      verify_package env package_path (some c) checksum_type check_signature =
        ((false,
          pyUpper checksum_type ++ " checksum mismatch!\\nExpected: " ++ c ++
            "\\nGot: " ++ d,
          { file_exists := true, file_size := env.fsize package_path,
            checksum_match := some false, signature_valid := none,
            integrity_ok := false }), []) := by
    simp [verify_package, verify_step_checksum, hex, hsize, hcalc, hc, hne,
      VerificationResults.init]
  refine ⟨hmain, ?_, ?_⟩
  · exact ⟨pyUpper checksum_type ++ " checksum mismatch!\\nExpected: ",
      "\\nGot: " ++ d, by rw [hmain]; simp [String.append_assoc]⟩
  · exact ⟨pyUpper checksum_type ++ " checksum mismatch!\\nExpected: " ++ c ++
      "\\nGot: ", by rw [hmain]⟩

/-- Evaluation of the C3 theorem: expected `ff00` against computed `aa11`
on a 4096-byte readable file. -/
theorem verify_checksum_mismatch_witness :
    verify_package envBase "/tmp/a.deb" (some "ff00") "sha256" false =
      ((false,
        pyUpper "sha256" ++ " checksum mismatch!\\nExpected: " ++ "ff00" ++
          "\\nGot: " ++ "aa11",
        { file_exists := true, file_size := envBase.fsize "/tmp/a.deb",
          checksum_match := some false, signature_valid := none,
          integrity_ok := false }), []) :=
  (verify_checksum_mismatch envBase "/tmp/a.deb" "ff00" "sha256" "aa11" false
    rfl (by decide) rfl (by decide) (by decide)).1

/-- Claim C8: for a detached-signature format (`.deb`), when signature
verification finds neither an `.asc` nor a `.sig` sibling, it returns a
hard failure reporting that no signature file was found (no silent skip),
and `verify_package` with the signature flag set consequently fails for
that artifact. -/
theorem signature_file_missing_fails (env : Env) (package_path : String)
    (hdeb : get_package_type package_path = ".deb")
    (hasc : env.fexists (package_path ++ ".asc") = false)
    (hsig : env.fexists (package_path ++ ".sig") = false) :
    verify_gpg_signature env package_path =
      ((false, "No signature file found (.asc or .sig required)"), []) ∧
    (env.fexists package_path = true → ¬ env.fsize package_path < 1024 →
      ∀ checksum_type,
        verify_package env package_path none checksum_type true =
          ((false,
            "GPG signature verification failed: " ++
              "No signature file found (.asc or .sig required)",
            { file_exists := true, file_size := env.fsize package_path,
              checksum_match := none, signature_valid := some false,
              integrity_ok := false }), [])) := by
  have hsigfn : verify_gpg_signature env package_path =
      ((false, "No signature file found (.asc or .sig required)"), []) := by
    simp [verify_gpg_signature, hdeb, hasc, hsig]
  refine ⟨hsigfn, fun hx hsz checksum_type => ?_⟩
  simp [verify_package, verify_step_checksum, verify_step_signature, hx, hsz,
    hsigfn, VerificationResults.init]

/-- Evaluation of the C8 theorem on a host where only `/tmp/a.deb` exists. -/
theorem signature_file_missing_fails_witness :
    verify_gpg_signature envOnlyPkg "/tmp/a.deb" =
      ((false, "No signature file found (.asc or .sig required)"), []) ∧
    verify_package envOnlyPkg "/tmp/a.deb" none "sha256" true =
      ((false,
        "GPG signature verification failed: " ++
          "No signature file found (.asc or .sig required)",
        { file_exists := true, file_size := envOnlyPkg.fsize "/tmp/a.deb",
          checksum_match := none, signature_valid := some false,
          integrity_ok := false }), []) :=
  ⟨(signature_file_missing_fails envOnlyPkg "/tmp/a.deb" (by decide) (by decide)
      (by decide)).1,
   (signature_file_missing_fails envOnlyPkg "/tmp/a.deb" (by decide) (by decide)
      (by decide)).2 (by decide) (by decide) "sha256"⟩

/-- Claim C9: for formats with a metadata-inspection tool (`.deb`, `.rpm`),
a tool absent from the host (`FileNotFoundError`) makes the structural
integrity check pass by default with a note, so tool unavailability alone
never makes `verify_package` fail; a present tool exiting non-zero, or a
timeout, fails the check. -/
theorem integrity_tool_policy (env : Env) (package_path : String) :
    (get_package_type package_path = ".deb" →
      (∀ m, env.run ["dpkg-deb", "--info", package_path] = .notFound m →
        (check_package_integrity env package_path).1 =
          (true, "Integrity check skipped (tools not available)")) ∧
      (∀ rc out err,
        env.run ["dpkg-deb", "--info", package_path] = .finished rc out err →
        rc ≠ 0 →
        (check_package_integrity env package_path).1 =
          (false, "Package appears to be corrupted or invalid")) ∧
      (env.run ["dpkg-deb", "--info", package_path] = .timeout →
        (check_package_integrity env package_path).1 =
          (false, "Integrity check timed out"))) ∧
    (get_package_type package_path = ".rpm" →
      (∀ m, env.run ["rpm", "-qp", package_path] = .notFound m →
        (check_package_integrity env package_path).1 =
          (true, "Integrity check skipped (tools not available)")) ∧
      (∀ rc out err,
        env.run ["rpm", "-qp", package_path] = .finished rc out err →
        rc ≠ 0 →
        (check_package_integrity env package_path).1 =
          (false, "Package appears to be corrupted or invalid")) ∧
      (env.run ["rpm", "-qp", package_path] = .timeout →
        (check_package_integrity env package_path).1 =
          (false, "Integrity check timed out"))) ∧
    (∀ checksum_type m,
      env.fexists package_path = true → ¬ env.fsize package_path < 1024 →
      get_package_type package_path = ".deb" →
      env.run ["dpkg-deb", "--info", package_path] = .notFound m →
      (verify_package env package_path none checksum_type false).1.1 = true) := by
  refine ⟨fun hdeb => ⟨?_, ?_, ?_⟩, fun hrpm => ⟨?_, ?_, ?_⟩, ?_⟩
  · intro m hrun
    simp [check_package_integrity, hdeb, hrun]
  · intro rc out err hrun hrc
    simp [check_package_integrity, hdeb, hrun, hrc]
  · intro hrun
    simp [check_package_integrity, hdeb, hrun]
  · intro m hrun
    simp [check_package_integrity, hrpm, hrun]
  · intro rc out err hrun hrc
    simp [check_package_integrity, hrpm, hrun, hrc]
  · intro hrun
    simp [check_package_integrity, hrpm, hrun]
  · intro checksum_type m hx hsz hdeb hrun
    simp [verify_package, verify_step_checksum, verify_step_signature,
      verify_step_integrity, check_package_integrity, hx, hsz, hdeb, hrun]

/-- Evaluation of the C9 theorem on a host with no tools installed. -/
theorem integrity_tool_policy_witness :
    (check_package_integrity envNoTools "/tmp/a.deb").1 =
      (true, "Integrity check skipped (tools not available)") ∧
    (verify_package envNoTools "/tmp/a.deb" none "sha256" false).1.1 = true :=
  ⟨((integrity_tool_policy envNoTools "/tmp/a.deb").1 (by decide)).1
      "no such file or directory" rfl,
   (integrity_tool_policy envNoTools "/tmp/a.deb").2.2 "sha256"
      "no such file or directory" (by decide) (by decide) (by decide) rfl⟩

/-- Every branch of `install_deb` produces a non-empty message. -/
theorem install_deb_msg_ne (env : Env) (p : String) :
    (install_deb env p).2 ≠ "" := by
  simp only [install_deb]
  repeat' split
  all_goals simp [pickErr, timeoutMsg, str_append_eq_empty_iff]

/-- Every branch of `install_rpm` produces a non-empty message. -/
theorem install_rpm_msg_ne (env : Env) (p : String) :
    (install_rpm env p).2 ≠ "" := by
  simp only [install_rpm]
  repeat' split
  all_goals simp [pickErr, timeoutMsg, str_append_eq_empty_iff]

/-- Every branch of `install_snap` produces a non-empty message. -/
theorem install_snap_msg_ne (env : Env) (p : String) :
    (install_snap env p).2 ≠ "" := by
  simp only [install_snap]
  repeat' split
  all_goals simp [pickErr, timeoutMsg, str_append_eq_empty_iff]

/-- Every branch of `install_flatpak` produces a non-empty message. -/
theorem install_flatpak_msg_ne (env : Env) (p : String) :
    (install_flatpak env p).2 ≠ "" := by
  simp only [install_flatpak]
  repeat' split
  all_goals simp [pickErr, timeoutMsg, str_append_eq_empty_iff]

/-- The verification success summary is never empty. -/
theorem verify_success_msg_ne (checksum : Option String)
    (checksum_type : String) (check_signature : Bool) :
    verify_success_msg checksum checksum_type check_signature ≠ "" := by
  unfold verify_success_msg
  simp [str_append_eq_empty_iff]

/-- Every branch of the integrity step produces a non-empty message. -/
theorem verify_step_integrity_msg_ne (env : Env) (p : String)
    (res : VerificationResults) (checksum : Option String)
    (checksum_type : String) (check_signature : Bool) :
    (verify_step_integrity env p res checksum checksum_type
      check_signature).1.2.1 ≠ "" := by
  unfold verify_step_integrity
  repeat' split
  all_goals simp [str_append_eq_empty_iff, verify_success_msg_ne]

/-- Every branch of the signature step produces a non-empty message. -/
theorem verify_step_signature_msg_ne (env : Env) (p : String)
    (res : VerificationResults) (checksum : Option String)
    (checksum_type : String) (check_signature : Bool) :
    (verify_step_signature env p res checksum checksum_type
      check_signature).1.2.1 ≠ "" := by
  unfold verify_step_signature
  repeat' split
  all_goals simp [str_append_eq_empty_iff, verify_step_integrity_msg_ne]

/-- Every branch of the checksum step produces a non-empty message. -/
theorem verify_step_checksum_msg_ne (env : Env) (p : String)
    (res : VerificationResults) (checksum : Option String)
    (checksum_type : String) (check_signature : Bool) :
    (verify_step_checksum env p res checksum checksum_type
      check_signature).1.2.1 ≠ "" := by
  unfold verify_step_checksum
  repeat' split
  all_goals simp [str_append_eq_empty_iff, verify_step_signature_msg_ne]

/-- Claim C10: on every host and every input — nonexistent paths,
unsupported extensions, unreadable files, missing tools, raising
subprocesses — `verify_package` and `install_package` return a structured
outcome whose message is non-empty; both are total functions of the
environment (every internal exception shows up as a failed outcome, none
escapes). -/
theorem public_interface_total (env : Env) (package_path : String)
    (checksum : Option String) (checksum_type : String)
    (check_signature : Bool) :
    (verify_package env package_path checksum checksum_type
      check_signature).1.2.1 ≠ "" ∧
    (install_package env package_path).2 ≠ "" := by
  constructor
  · simp only [verify_package]
    repeat' split
    all_goals
      simp [str_append_eq_empty_iff, verify_step_checksum_msg_ne]
  · simp only [install_package]
    repeat' split
    all_goals
      simp [install_deb_msg_ne, install_rpm_msg_ne, install_snap_msg_ne,
        install_flatpak_msg_ne]

/-- The last element of a cons is the last element of its non-empty tail. -/
theorem getLast?_cons_of_ne_nil {α : Type} (a : α) {l : List α}
    (h : l ≠ []) : (a :: l).getLast? = l.getLast? := by
  rw [show a :: l = [a] ++ l from rfl, List.getLast?_append_of_ne_nil _ h]

/-- An operation that raises an allow-listed error on every invocation
drives the retry loop to its last attempt: the result is the error of the
final invocation, the operation is invoked once per remaining attempt, and
(the final-failure callback being supplied) the last recorded action is
that callback with the final error. -/
theorem retryGo_allfail {α : Type} (retryable : Exn → Bool)
    (op : Nat → Except Exn α) (e : Nat → Exn) (onRetryCb : Bool)
    (factor max_delay : Rat)
    (hop : ∀ k, op k = .error (e k)) (hr : ∀ k, retryable (e k) = true) :
    ∀ remaining, 1 ≤ remaining → ∀ attempt delay,
      (retryGo retryable op onRetryCb true factor max_delay
          remaining attempt delay).1 = .error (e (attempt + remaining - 1)) ∧
      callCount (retryGo retryable op onRetryCb true factor max_delay
          remaining attempt delay).2 = remaining ∧
      (retryGo retryable op onRetryCb true factor max_delay
          remaining attempt delay).2.getLast? =
        some (.finalCb (e (attempt + remaining - 1))) := by
  intro remaining
  induction remaining with
  | zero => omega
  | succ r ih =>
    intro _ attempt delay
    by_cases hr0 : r = 0
    · subst hr0
      simp [retryGo, hop, hr, callCount]
    · have hr1 : 1 ≤ r := Nat.one_le_iff_ne_zero.mpr hr0
      have IH := ih hr1 (attempt + 1) (min (delay * factor) max_delay)
      have hidx : attempt + 1 + r - 1 = attempt + (r + 1) - 1 := by omega
      rw [hidx] at IH
      have hne : (retryGo retryable op onRetryCb true factor max_delay
          r (attempt + 1) (min (delay * factor) max_delay)).2 ≠ [] := by
        intro hnil
        have := IH.2.1
        rw [hnil] at this
        simp [callCount] at this
        omega
      refine ⟨?_, ?_, ?_⟩
      · simp only [retryGo, hop attempt, hr attempt, if_true, hr0, if_false]
        exact IH.1
      · simp only [retryGo, hop attempt, hr attempt, if_true, hr0, if_false]
        cases onRetryCb <;>
          simp [callCount, List.filter_append] <;>
          [exact IH.2.1; exact IH.2.1]
      · have hidx2 : attempt + (r + 1) - 1 = attempt + r := by omega
        rw [hidx2] at IH
        simp only [retryGo, hop attempt, hr attempt, if_true, hr0, if_false]
        cases onRetryCb <;>
          simp [getLast?_cons_of_ne_nil, hne, IH.2.2]

/-- Claim C4: an operation wrapped with `max_attempts = 3` that raises an
allow-listed error on every invocation is invoked exactly 3 times, the
error finally raised is the one produced by the third invocation, and the
supplied final-failure callback is invoked with it as the last action
before the raise. -/
theorem retry_exhaustion {α : Type} (cfg : RetryConfig) (onRetryCb : Bool)
    (op : Nat → Except Exn α) (e : Nat → Exn)
    (hmax : cfg.max_attempts = 3)
    (hop : ∀ k, op k = .error (e k))
    (hretry : ∀ k, exnMatches cfg.retryable_exceptions (e k) = true) :
    (retry_on_failure cfg onRetryCb true op).1 = .error (e 3) ∧
    callCount (retry_on_failure cfg onRetryCb true op).2 = 3 ∧
    (retry_on_failure cfg onRetryCb true op).2.getLast? =
      some (.finalCb (e 3)) := by
  have h := retryGo_allfail (exnMatches cfg.retryable_exceptions) op e
    onRetryCb cfg.backoff_factor cfg.max_delay hop hretry 3 (by omega)
    1 cfg.initial_delay
  simpa [retry_on_failure, hmax] using h

/-- The always-failing operation used to evaluate the C4 theorem. -/
def alwaysTimeout : Nat → Except Exn Unit :=
  fun k => .error ⟨.NetworkTimeoutError, k⟩

/-- Evaluation of the C4 theorem with the default configuration
(`max_attempts = 3`) on an operation that raises a fresh
`NetworkTimeoutError` each time. -/
theorem retry_exhaustion_witness :
    (retry_on_failure DEFAULT_RETRY_CONFIG false true alwaysTimeout).1 =
      .error ⟨.NetworkTimeoutError, 3⟩ ∧
    callCount (retry_on_failure DEFAULT_RETRY_CONFIG false true alwaysTimeout).2 = 3 ∧
    (retry_on_failure DEFAULT_RETRY_CONFIG false true alwaysTimeout).2.getLast? =
      some (.finalCb ⟨.NetworkTimeoutError, 3⟩) :=
  retry_exhaustion DEFAULT_RETRY_CONFIG false alwaysTimeout
    (fun k => ⟨.NetworkTimeoutError, k⟩) rfl (fun _ => rfl) (fun _ => rfl)

/-- Claim C5: an operation raising an error outside the configured
allow-list is invoked exactly once — the wrapper propagates the error with
no sleep, no callback and no further attempt; and the code's own
retryability predicate holds exactly for the three transient kinds
(network timeout, download failure, installation timeout). -/
theorem retry_non_retryable_short_circuit {α : Type} :
    (∀ (cfg : RetryConfig) (onRetryCb onFinalCb : Bool)
        (op : Nat → Except Exn α) (e : Exn),
      1 ≤ cfg.max_attempts →
      op 1 = .error e →
      exnMatches cfg.retryable_exceptions e = false →
      retry_on_failure cfg onRetryCb onFinalCb op = (.error e, [.call 1])) ∧
    (∀ e : Exn, is_retryable_error e = true ↔
      (e.cls = .NetworkTimeoutError ∨ e.cls = .DownloadError ∨
        e.cls = .InstallationTimeoutError)) := by
  constructor
  · intro cfg onRetryCb onFinalCb op e hmax hop hmatch
    rcases hm : cfg.max_attempts with _ | m
    · omega
    · simp [retry_on_failure, hm, retryGo, hop, hmatch]
  · intro e
    rcases e with ⟨c, t⟩
    cases c <;>
      simp [is_retryable_error, exnMatches, isinstance, ExnClass.ancestors]

/-- The non-retryable operation used to evaluate the C5 theorem. -/
def raiseInvalidPackage : Nat → Except Exn Unit :=
  fun _ => .error ⟨.InvalidPackageError, 7⟩

/-- Evaluation of the C5 theorem: an `InvalidPackageError` under the
default configuration is propagated after exactly one invocation. -/
theorem retry_non_retryable_short_circuit_witness :
    retry_on_failure DEFAULT_RETRY_CONFIG false false raiseInvalidPackage =
      (.error ⟨.InvalidPackageError, 7⟩, [.call 1]) ∧
    is_retryable_error ⟨.InvalidPackageError, 7⟩ = false :=
  ⟨retry_non_retryable_short_circuit.1 DEFAULT_RETRY_CONFIG false false
      raiseInvalidPackage ⟨.InvalidPackageError, 7⟩ (by decide) rfl rfl,
   by decide⟩

/-- Claim C6: in a batch over `[A, B, C]` where A succeeds, B fails and the
continuation prompt is declined, exactly A and B are attempted and logged
(in order), nothing is ever logged for C, C is never attempted — the run's
result does not even depend on what C's verification/installation would
have produced — and the run ends aborted. -/
theorem batch_abort_on_decline (outcome : String → Bool × String)
    (continueReply : String → String → Bool) (a b c ma mb : String)
    (ha : outcome a = (true, ma)) (hb : outcome b = (false, mb))
    (hreply : continueReply b mb = false)
    (hca : c ≠ a) (hcb : c ≠ b) :
    runBatch outcome continueReply [a, b, c] =
      ([⟨a, pyBasename a, true, ma⟩, ⟨b, pyBasename b, false, mb⟩], [a, b],
        .aborted) ∧
    (∀ entry ∈ (runBatch outcome continueReply [a, b, c]).1,
      entry.package ≠ c) ∧
    c ∉ (runBatch outcome continueReply [a, b, c]).2.1 ∧
    (∀ outcome2 : String → Bool × String, outcome2 a = outcome a →
      outcome2 b = outcome b →
      runBatch outcome2 continueReply [a, b, c] =
        runBatch outcome continueReply [a, b, c]) := by
  have hmain : runBatch outcome continueReply [a, b, c] =
      ([⟨a, pyBasename a, true, ma⟩, ⟨b, pyBasename b, false, mb⟩], [a, b],
        .aborted) := by
    simp [runBatch, ha, hb, hreply]
  refine ⟨hmain, ?_, ?_, ?_⟩
  · rw [hmain]
    intro entry hentry
    simp only [List.mem_cons, List.not_mem_nil, or_false] at hentry
    rcases hentry with rfl | rfl
    · exact fun h => hca h.symm
    · exact fun h => hcb h.symm
  · rw [hmain]
    simp [hca, hcb]
  · intro outcome2 h2a h2b
    rw [hmain]
    rw [ha] at h2a
    rw [hb] at h2b
    simp [runBatch, h2a, h2b, hreply]

/-- The per-item pipeline used to evaluate the C6 theorem: A succeeds,
everything else fails. -/
def batchOutcome : String → Bool × String :=
  fun p => if p = "/tmp/a.deb" then (true, "ok") else (false, "boom")

/-- The continuation prompt used to evaluate the C6 theorem: always
decline. -/
def declineReply : String → String → Bool :=
  fun _ _ => false

/-- Evaluation of the C6 theorem on a concrete three-item queue. -/
theorem batch_abort_on_decline_witness :
    runBatch batchOutcome declineReply
        ["/tmp/a.deb", "/tmp/b.deb", "/tmp/c.deb"] =
      ([⟨"/tmp/a.deb", pyBasename "/tmp/a.deb", true, "ok"⟩,
        ⟨"/tmp/b.deb", pyBasename "/tmp/b.deb", false, "boom"⟩],
       ["/tmp/a.deb", "/tmp/b.deb"], .aborted) :=
  (batch_abort_on_decline batchOutcome declineReply
    "/tmp/a.deb" "/tmp/b.deb" "/tmp/c.deb" "ok" "boom"
    (by decide) (by decide) rfl (by decide) (by decide)).1

/-- Claim C7, counterexample: a single drop event whose URL list contains
the same absolute path twice adds it to the queue twice — `dropEvent`
checks candidates only against the queue as it was before the drop, so
"adding the same absolute path twice results in a queue containing it
once" fails and path uniqueness is not preserved by every queue
operation. -/
theorem queue_dedup_counterexample :
    dropEventQueue (fun _ => true) [] ["/tmp/a.deb", "/tmp/a.deb"] =
      ["/tmp/a.deb", "/tmp/a.deb"] ∧
    ¬ (dropEventQueue (fun _ => true) [] ["/tmp/a.deb", "/tmp/a.deb"]).Nodup ∧
    (dropEventQueue (fun _ => true) [] ["/tmp/a.deb", "/tmp/a.deb"]).length ≠ 1 := by
  refine ⟨by decide, by decide, by decide⟩

/-- `browse_package` preserves queue uniqueness (it re-checks membership
against the updated queue for every selected path). -/
theorem browseAddQueue_nodup :
    ∀ (filePaths queue : List String), queue.Nodup →
      (browseAddQueue queue filePaths).Nodup
  | [], _, h => h
  | p :: ps, queue, h => by
    by_cases hp : p ∈ queue
    · simpa [browseAddQueue, hp] using browseAddQueue_nodup ps queue h
    · have hq : (queue ++ [p]).Nodup := by
        simp [List.nodup_append, h, hp]
      simpa [browseAddQueue, hp] using browseAddQueue_nodup ps (queue ++ [p]) hq

/-- Claim C7 (amended): re-submitting a path that is already in the queue —
whether through the file dialog or through a drop — leaves the queue
unchanged; `browse_package` preserves uniqueness unconditionally,
`dropEvent` preserves it provided the single drop itself contains no
duplicate paths (the counterexample shows that proviso is necessary), and
removal by index preserves it. -/
theorem queue_dedup (queue : List String) (p : String) :
    (p ∈ queue → browseAddQueue queue [p] = queue) ∧
    (∀ isFile : String → Bool, p ∈ queue →
      dropEventQueue isFile queue [p] = queue) ∧
    (∀ filePaths, queue.Nodup → (browseAddQueue queue filePaths).Nodup) ∧
    (∀ (isFile : String → Bool) (urls : List String), queue.Nodup →
      urls.Nodup → (dropEventQueue isFile queue urls).Nodup) ∧
    (∀ index, queue.Nodup → (removeFromQueue queue index).Nodup) := by
  refine ⟨?_, ?_, ?_, ?_, ?_⟩
  · intro hp
    simp [browseAddQueue, hp]
  · intro isFile hp
    simp [dropEventQueue, hp]
  · intro filePaths h
    exact browseAddQueue_nodup filePaths queue h
  · intro isFile urls hq hu
    unfold dropEventQueue
    rw [List.nodup_append]
    refine ⟨hq, hu.filter _, ?_⟩
    intro x hxq hxf
    have hprop := (List.mem_filter.mp hxf).2
    simp [List.contains, List.elem_iff] at hprop
    exact hprop.2 hxq
  · intro index hq
    unfold removeFromQueue
    split
    · exact hq.sublist (List.eraseIdx_sublist queue index)
    · exact hq

/-- Evaluation of the amended C7 theorem: re-submitting a queued path via
the dialog and via a drop leaves the queue unchanged. -/
theorem queue_dedup_witness :
    browseAddQueue ["/tmp/a.deb"] ["/tmp/a.deb"] = ["/tmp/a.deb"] ∧
    dropEventQueue (fun _ => true) ["/tmp/a.deb"] ["/tmp/a.deb"] =
      ["/tmp/a.deb"] :=
  ⟨(queue_dedup ["/tmp/a.deb"] "/tmp/a.deb").1 (by decide),
   (queue_dedup ["/tmp/a.deb"] "/tmp/a.deb").2.1 (fun _ => true) (by decide)⟩

end SnapWiz
